import Mathlib

/-!
Shallow embedding of MidnightTale/hyprland-portal-reset-helper.

The repository is a Rust program orchestrating the lifecycle of the
xdg-desktop-portal daemons.  `src/main.rs` is the compiled binary and
contains inline copies of the scanners, the terminator and the dbus
restart protocol; `src/process.rs`, `src/dbus.rs` and `src/portal.rs`
hold a shared, refactored version of the same logic.  Both variants are
embedded here.

Strings from the process table are modelled as `List Char`; the text
operations used by the code (`trim`, `contains`, `starts_with`,
`split('\0').first`, `split('/').last`) are defined below on character
lists.  The process table itself is a list of `ProcEntry` snapshots of
the `/proc` pseudo-filesystem; reads that can fail (`metadata`, `comm`,
`cmdline`, `exe`) are `Option` fields.  Scans performed at different
instants by the polling loops are modelled as functions from the poll
index to the scan result.
-/

namespace PortalReset

/-- Whitespace test used by Rust's `str::trim` (restricted to the ASCII
whitespace characters, which is what process-table text contains). -/
def isWsp (c : Char) : Bool :=
  c == ' ' || c == '\t' || c == '\n' || c == '\r' || c == '\x0b' || c == '\x0c'

/-- Rust `str::trim`: drop leading and trailing whitespace. -/
def wtrim (l : List Char) : List Char :=
  ((l.dropWhile isWsp).reverse.dropWhile isWsp).reverse

/-- Rust `str::contains(pat)`: `pat` occurs as a contiguous substring of
the second argument. -/
def containsSub (pat : List Char) : List Char → Bool
  | [] => pat.isEmpty
  | c :: rest => List.isPrefixOf pat (c :: rest) || containsSub pat rest

/-- Rust `str::parse::<i32>()` applied to a `/proc` directory name that
already passed the all-numeric-characters filter: succeeds exactly on a
nonempty string of decimal digits whose value fits in an `i32`.
(Entries whose name holds a non-ASCII numeric character pass the Rust
filter but fail `parse`, so they are skipped either way; the embedding
folds the two checks into one digit test.) -/
def parsePid (s : List Char) : Option Nat :=
  if s.isEmpty || !s.all (fun c => c.isDigit) then none
  else
    let n := s.foldl (fun a c => a * 10 + (c.toNat - 48)) 0
    if n ≤ 2147483647 then some n else none

/-- The exact process name of the second portal, `"xdg-desktop-portal"`. -/
def xdgName : List Char := "xdg-desktop-portal".toList

/-- The exact process name of the first portal, `"xdg-desktop-portal-hyprland"`. -/
def hyprName : List Char := "xdg-desktop-portal-hyprland".toList

/-- The session-bus command name, `"dbus-daemon"`. -/
def dbusName : List Char := "dbus-daemon".toList

/-- The session-bus argument marker, `"--session"`. -/
def sessionArg : List Char := "--session".toList

/-- Fallback display name `"unknown-portal"` from `main.rs`. -/
def unknownPortal : List Char := "unknown-portal".toList

/-- One `/proc` directory entry as observed by a single scan.
`dirName` is the directory name; `uid` is the owning user id when
`metadata()` succeeds; `comm`, `cmdline` and `exe` are the contents of
the corresponding per-process files when readable. -/
structure ProcEntry where
  dirName : List Char
  uid : Option Nat
  comm : Option (List Char)
  cmdline : Option (List Char)
  exe : Option (List Char)
deriving DecidableEq

/-- `src/process.rs::find_processes_by_name`, decision for one entry:
numeric-name filter and pid parse, skip the caller's own pid, skip
entries not owned (or with unreadable metadata), then match the trimmed
`comm` by substring containment against `name_pattern`, additionally
requiring `cmdline` to contain `args_pattern` when one is supplied. -/
def matchEntryShared (name_pattern : List Char) (args_pattern : Option (List Char))
    (ourPid ourUid : Nat) (e : ProcEntry) : Option (Nat × List Char) :=
  match parsePid e.dirName with
  | none => none
  | some pid =>
    if pid == ourPid then none
    else
      match e.uid with
      | none => none
      | some uid =>
        if uid != ourUid then none
        else
          match e.comm with
          | none => none
          | some c0 =>
            if containsSub name_pattern (wtrim c0) then
              match args_pattern with
              | none => some (pid, wtrim c0)
              | some apat =>
                match e.cmdline with
                | none => none
                | some cl => if containsSub apat cl then some (pid, wtrim c0) else none
            else none

/-- `src/process.rs::find_processes_by_name` over a process-table
snapshot. -/
def find_processes_by_name (name_pattern : List Char) (args_pattern : Option (List Char))
    (ourPid ourUid : Nat) (entries : List ProcEntry) : List (Nat × List Char) :=
  entries.filterMap (matchEntryShared name_pattern args_pattern ourPid ourUid)

/-- `src/portal.rs::find_portal_processes`:
`find_processes_by_name("xdg-desktop-portal", None)`. -/
def portal_find_portal_processes (ourPid ourUid : Nat) (entries : List ProcEntry) :
    List (Nat × List Char) :=
  find_processes_by_name xdgName none ourPid ourUid entries

/-- `src/dbus.rs::find_dbus_processes`:
`find_processes_by_name("dbus-daemon", Some("--session"))`. -/
def dbus_find_dbus_processes (ourPid ourUid : Nat) (entries : List ProcEntry) :
    List (Nat × List Char) :=
  find_processes_by_name dbusName (some sessionArg) ourPid ourUid entries

/-- Rust `cmd.split('/').last()`: the text after the final slash
(`split('/')` always yields at least one piece, so `unwrap_or` never
fires on this path). -/
def lastSlashSeg (l : List Char) : List Char :=
  (l.reverse.takeWhile (fun c => c != '/')).reverse

/-- Split a path on slashes. -/
def splitSlash : List Char → List (List Char)
  | [] => [[]]
  | c :: rest =>
    if c == '/' then [] :: splitSlash rest
    else
      match splitSlash rest with
      | [] => [[c]]
      | s :: ss => (c :: s) :: ss

/-- Rust `Path::file_name()` on the `exe` symlink target: the final
nonempty path component, none for a root path or a trailing `..`. -/
def pathFileName (p : List Char) : Option (List Char) :=
  match ((splitSlash p).filter (fun s => !s.isEmpty)).getLast? with
  | none => none
  | some s => if s = ['.', '.'] then none else some s

/-- `src/main.rs::find_portal_processes`, decision for one entry
(lines 70-147): numeric filter, pid parse, own-pid skip, ownership
check, then three cascaded matches — trimmed `comm` starting with
`"xdg-desktop-portal"`; else the first `cmdline` argument containing
it (display name is its final slash segment); else the `exe` symlink
target containing it (display name is its file name). -/
def main_find_portal_entry (ourPid ourUid : Nat) (e : ProcEntry) :
    Option (Nat × List Char) :=
  match parsePid e.dirName with
  | none => none
  | some pid =>
    if pid == ourPid then none
    else
      match e.uid with
      | none => none
      | some uid =>
        if uid != ourUid then none
        else
          match e.comm.bind (fun c0 =>
              if List.isPrefixOf xdgName (wtrim c0) then some (wtrim c0) else none) with
          | some nm => some (pid, nm)
          | none =>
            match e.cmdline.bind (fun cl =>
                let cmd := cl.takeWhile (fun c => c != '\x00')
                if containsSub xdgName cmd then some (lastSlashSeg cmd) else none) with
            | some nm => some (pid, nm)
            | none =>
              match e.exe.bind (fun ex =>
                  if containsSub xdgName ex
                  then some ((pathFileName ex).getD unknownPortal) else none) with
              | some nm => some (pid, nm)
              | none => none

/-- `src/main.rs::find_portal_processes` over a snapshot. -/
def main_find_portal_processes (ourPid ourUid : Nat) (entries : List ProcEntry) :
    List (Nat × List Char) :=
  entries.filterMap (main_find_portal_entry ourPid ourUid)

/-- `src/main.rs::find_dbus_processes`, decision for one entry
(lines 156-179): numeric filter and pid parse, then `comm` trimmed must
equal `"dbus-daemon"` exactly and `cmdline` must contain `"--session"`.
Note: unlike the other scanners, this one has no own-pid skip and no
ownership check. -/
def main_find_dbus_entry (e : ProcEntry) : Option (Nat × List Char) :=
  match parsePid e.dirName with
  | none => none
  | some pid =>
    match e.comm with
    | none => none
    | some c0 =>
      if wtrim c0 == dbusName then
        match e.cmdline with
        | none => none
        | some cl => if containsSub sessionArg cl then some (pid, dbusName) else none
      else none

/-- `src/main.rs::find_dbus_processes` over a snapshot. -/
def main_find_dbus_processes (entries : List ProcEntry) : List (Nat × List Char) :=
  entries.filterMap main_find_dbus_entry

/-- The two POSIX signals the program sends. -/
inductive Sig where
  | SIGTERM
  | SIGKILL
deriving DecidableEq

/-- `src/process.rs::kill_processes`: one signal attempt per record —
SIGTERM when `force` is false, SIGKILL when it is true.  The OS outcome
of each delivery is supplied by the oracle `ok`.  Returns the list of
attempted deliveries (pid, signal) in order together with the count of
deliveries that succeeded. -/
def kill_processes (procs : List (Nat × List Char)) (force : Bool)
    (ok : Nat → Sig → Bool) : List (Nat × Sig) × Nat :=
  match procs with
  | [] => ([], 0)
  | p :: rest =>
    let sig := if force then Sig.SIGKILL else Sig.SIGTERM
    let r := kill_processes rest force ok
    ((p.1, sig) :: r.1, (if ok p.1 sig then 1 else 0) + r.2)

/-- Observable steps of `spawn_portal` as seen from the orchestrator:
pipe creation, the fork call, and the two background output threads
spawned on the parent side. -/
inductive SpawnEffect where
  | pipeCreate
  | forkCall
  | threadSpawn
deriving DecidableEq

/-- `src/portal.rs::spawn_portal` (= `src/main.rs::spawn_portal`),
parent-side view.  `pathExists` is the `Path::new(path).exists()`
precondition; `pipeRes`, `forkRes` and `closeRes` are the outcomes of
the fallible `pipe()`, `fork()` and parent-side `close(writer_tx)`
primitives (errno as `Nat`), each propagated by `?`.  Returns the
effects performed in order and the `nix::Result<()>` value.  When the
binary is missing the function logs and returns `Ok(())` before any of
the three primitives run. -/
def spawn_portal (pathExists : Bool) (pipeRes : Except Nat (Nat × Nat))
    (forkRes : Except Nat Nat) (closeRes : Except Nat Unit) :
    List SpawnEffect × Except Nat Unit :=
  if !pathExists then ([], Except.ok ())
  else
    match pipeRes with
    | Except.error e => ([SpawnEffect.pipeCreate], Except.error e)
    | Except.ok _ =>
      match forkRes with
      | Except.error e => ([SpawnEffect.pipeCreate, SpawnEffect.forkCall], Except.error e)
      | Except.ok _ =>
        match closeRes with
        | Except.error e => ([SpawnEffect.pipeCreate, SpawnEffect.forkCall], Except.error e)
        | Except.ok _ =>
          ([SpawnEffect.pipeCreate, SpawnEffect.forkCall,
            SpawnEffect.threadSpawn, SpawnEffect.threadSpawn], Except.ok ())

/-- Observable steps of a dbus restart: a signal delivery to a pid, one
scan of the wait loop, and the single `Command::new("dbus-daemon")`
spawn attempt. -/
inductive DbusEffect where
  | signal (pid : Nat) (sig : Sig)
  | waitPoll
  | spawnBus
deriving DecidableEq

/-- The wait loop of the dbus restart (`for _ in 0..10`): each
iteration scans the bus processes (recorded as one `waitPoll`), breaks
if the set is empty, otherwise sleeps 100ms and continues.  `polls i`
is the scan result at wait-iteration `i`. -/
def dbusWaitGo (polls : Nat → List (Nat × List Char)) : Nat → Nat → List DbusEffect
  | 0, _ => []
  | fuel + 1, i =>
    DbusEffect.waitPoll :: (if (polls i).isEmpty then [] else dbusWaitGo polls fuel (i + 1))

/-- `src/dbus.rs::restart_dbus`: if the initial session-bus scan
(`scan0`) is empty, nothing happens; otherwise every found record gets
one graceful signal via `kill_processes(.., false)`, the wait loop runs
up to 10 scans, and one new `dbus-daemon --session` spawn is attempted. -/
def restart_dbus (scan0 : List (Nat × List Char)) (polls : Nat → List (Nat × List Char))
    (killOk : Nat → Sig → Bool) : List DbusEffect :=
  if scan0.isEmpty then []
  else
    ((kill_processes scan0 false killOk).1.map (fun a => DbusEffect.signal a.1 a.2))
      ++ dbusWaitGo polls 10 0 ++ [DbusEffect.spawnBus]

/-- `src/main.rs::restart_dbus` (lines 295-325): same protocol, with the
graceful signals sent by a direct `signal::kill(pid, SIGTERM)` loop. -/
def main_restart_dbus (scan0 : List (Nat × List Char))
    (polls : Nat → List (Nat × List Char)) : List DbusEffect :=
  if scan0.isEmpty then []
  else
    (scan0.map (fun p => DbusEffect.signal p.1 Sig.SIGTERM))
      ++ dbusWaitGo polls 10 0 ++ [DbusEffect.spawnBus]

/-- The inline duplicate of the dbus check-and-restart block in
`src/main.rs::main` (lines 342-370); textually identical protocol to
`main_restart_dbus`. -/
def main_dbus_inline (scan0 : List (Nat × List Char))
    (polls : Nat → List (Nat × List Char)) : List DbusEffect :=
  if scan0.isEmpty then []
  else
    (scan0.map (fun p => DbusEffect.signal p.1 Sig.SIGTERM))
      ++ dbusWaitGo polls 10 0 ++ [DbusEffect.spawnBus]

/-- The dbus phase of `src/main.rs::main` (lines 339-370): the
`restart_dbus()` call followed immediately by the inline duplicate of
the same check-and-restart block.  `s1`/`p1` are the scans observed by
the first pass, `s2`/`p2` those observed by the second. -/
def main_dbus_phase (s1 : List (Nat × List Char)) (p1 : Nat → List (Nat × List Char))
    (s2 : List (Nat × List Char)) (p2 : Nat → List (Nat × List Char)) : List DbusEffect :=
  main_restart_dbus s1 p1 ++ main_dbus_inline s2 p2

/-- Number of signal deliveries in an effect trace. -/
def countSigs (l : List DbusEffect) : Nat :=
  (l.filter (fun e => match e with | DbusEffect.signal _ _ => true | _ => false)).length

/-- Number of wait-loop scans in an effect trace. -/
def countPolls (l : List DbusEffect) : Nat :=
  (l.filter (fun e => match e with | DbusEffect.waitPoll => true | _ => false)).length

/-- Number of bus spawn attempts in an effect trace. -/
def countSpawns (l : List DbusEffect) : Nat :=
  (l.filter (fun e => match e with | DbusEffect.spawnBus => true | _ => false)).length

/-- `max_retries` in `src/main.rs::main`. -/
def max_retries : Nat := 3

/-- First-portal verification loop body (`src/main.rs` lines 381-388):
up to 20 polls at 100ms; `scan i` is the `find_portal_processes()`
result at poll `i`.  Returns the final `success` flag and the number of
polls performed: the loop starts with `success = true` and the moment a
poll sees the empty set it sets `success = false` and breaks. -/
def hyprPollGo (scan : Nat → List (Nat × List Char)) : Nat → Nat → Bool × Nat
  | 0, i => (true, i)
  | fuel + 1, i =>
    if (scan i).isEmpty then (false, i + 1) else hyprPollGo scan fuel (i + 1)

/-- The 20-iteration first-portal verification loop. -/
def hyprPollLoop (scan : Nat → List (Nat × List Char)) : Bool × Nat :=
  hyprPollGo scan 20 0

/-- The first-portal retry loop of `src/main.rs::main` (lines 376-404),
abstracted over the verification outcome of each attempt: `outcome r`
is the poll-loop verdict of the attempt made with `retry_count = r`.
Returns the number of `spawn_portal` invocations performed and whether
the loop exited verified (`true`) or by exhausting the retries
(`false`, the early `return Ok(())` path). -/
def hyprRetryGo (outcome : Nat → Bool) (retry : Nat) : Nat × Bool :=
  if outcome retry then (1, true)
  else if retry + 1 ≥ max_retries then (1, false)
  else
    let r := hyprRetryGo outcome (retry + 1)
    (r.1 + 1, r.2)
termination_by max_retries - retry
decreasing_by simp only [max_retries] at *; omega

/-- The retry loop entered with `retry_count = 0`. -/
def hyprRetryLoop (outcome : Nat → Bool) : Nat × Bool :=
  hyprRetryGo outcome 0

/-- What `main` returns after the retry loop: when the loop exhausted
its retries, `main` returns `Ok(())` immediately (exit status 0);
otherwise it continues with the rest of the program, whose result is
`rest`. -/
def mainAfterRetry (outcome : Nat → Bool) (rest : Except Nat Unit) : Except Nat Unit :=
  if (hyprRetryLoop outcome).2 then rest else Except.ok ()

/-- The exact-name check of the second-portal loop (`src/main.rs` line
416): some scanned record is named exactly `"xdg-desktop-portal"`. -/
def xdgExactCheck (scan : Nat → List (Nat × List Char)) (i : Nat) : Bool :=
  (scan i).any (fun p => p.2 == xdgName)

/-- The fallback check of the second-portal loop (line 419): some
record of a fresh scan is named exactly `"xdg-desktop-portal-hyprland"`. -/
def xdgFallbackCheck (scan : Nat → List (Nat × List Char)) (i : Nat) : Bool :=
  (scan i).any (fun p => p.2 == hyprName)

/-- Second-portal verification loop body (`src/main.rs` lines 413-427).
`scanA i` is the scan of the exact-name check at poll `i`; `scanB i` is
the separate scan taken by the fallback check at the same poll.
`success` starts `false`; a passing exact check sets it `true` and
polling continues; a failing exact check stops polling, setting
`success` to `true` when the fallback check passes and otherwise
leaving it at its current value (it is never reset). -/
def xdgPollGo (scanA scanB : Nat → List (Nat × List Char)) :
    Nat → Nat → Bool → Bool
  | 0, _, success => success
  | fuel + 1, i, success =>
    if xdgExactCheck scanA i then xdgPollGo scanA scanB fuel (i + 1) true
    else if xdgFallbackCheck scanB i then true
    else success

/-- The 20-iteration second-portal verification loop. -/
def xdgPollLoop (scanA scanB : Nat → List (Nat × List Char)) : Bool :=
  xdgPollGo scanA scanB 20 0 false

/-- Concrete poll trace: the exact name `"xdg-desktop-portal"` is seen
at poll 0 and never again. -/
def c1scanA : Nat → List (Nat × List Char) :=
  fun n => if n = 0 then [(11, xdgName)] else []

/-- Concrete fallback trace: the Hyprland portal is present at every
fallback re-scan. -/
def c1wscanB : Nat → List (Nat × List Char) :=
  fun _ => [(5, hyprName)]

/-- Concrete `/proc` snapshot entry: a session `dbus-daemon` whose pid,
9, is the orchestrator's own pid in the modelled invocation. -/
def c3entry : ProcEntry :=
  ⟨"9".toList, some 1000, some ("dbus-daemon\n".toList),
    some ("dbus-daemon\x00--session\x00".toList), none⟩

/-- Concrete `/proc` snapshot entry: a session `dbus-daemon` owned by
root (uid 0) while the orchestrator runs as uid 1000. -/
def c4entry : ProcEntry :=
  ⟨"9".toList, some 0, some ("dbus-daemon\n".toList),
    some ("dbus-daemon\x00--session\x00".toList), none⟩

/-- Concrete `/proc` snapshot entry: a process whose command name
`"xdbus-daemon"` merely contains `"dbus-daemon"` as a substring. -/
def c5entry : ProcEntry :=
  ⟨"7".toList, some 1000, some ("xdbus-daemon\n".toList),
    some ("xdbus-daemon\x00--session\x00".toList), none⟩

/-- Concrete first-portal poll trace: the portal-process set is
nonempty at polls 0-4 and empty from poll 5 on. -/
def c9scan : Nat → List (Nat × List Char) :=
  fun i => if i < 5 then [(1, xdgName)] else []

/-! ## Terminator (claim C6) -/

/-- C6: for every record list, flag and delivery oracle,
`kill_processes` attempts exactly one signal per record — SIGTERM when
`force = false`, SIGKILL when `force = true` — returns the count of
deliveries that succeeded (failed deliveries are not counted), and
performs no graceful-to-forceful escalation within the call: every
attempted signal is the one selected by `force`. -/
theorem kill_processes_contract (procs : List (Nat × List Char)) (force : Bool)
    (ok : Nat → Sig → Bool) :
    (kill_processes procs force ok).1 =
      procs.map (fun p => (p.1, if force then Sig.SIGKILL else Sig.SIGTERM)) ∧
    (kill_processes procs force ok).2 =
      (procs.filter
        (fun p => ok p.1 (if force then Sig.SIGKILL else Sig.SIGTERM))).length ∧
    (kill_processes procs force ok).1.length = procs.length := by
  induction procs with
  | nil => simp [kill_processes]
  | cons p rest ih =>
    obtain ⟨h1, h2, h3⟩ := ih
    refine ⟨by simp [kill_processes, h1], ?_, by simp [kill_processes, h3]⟩
    cases force <;>
      simp only [kill_processes, h2, List.filter_cons, Bool.false_eq_true,
        if_false, if_true] <;>
      split <;> simp <;> omega

/-! ## Portal launcher (claim C8) -/

/-- C8: for every missing binary path, `spawn_portal` returns the
success result `Ok(())` without creating a pipe, forking, or spawning
any background task (its effect list is empty), so the missing binary
is never propagated to the caller as an error value; by contrast, when
the path exists, the pipe-creation primitive always runs. -/
theorem spawn_portal_missing_binary (pipeRes : Except Nat (Nat × Nat))
    (forkRes : Except Nat Nat) (closeRes : Except Nat Unit) :
    spawn_portal false pipeRes forkRes closeRes = ([], Except.ok ()) ∧
    SpawnEffect.pipeCreate ∈ (spawn_portal true pipeRes forkRes closeRes).1 := by
  refine ⟨rfl, ?_⟩
  cases pipeRes <;> cases forkRes <;> cases closeRes <;> simp [spawn_portal]

/-! ## Retry loop (claim C2) -/

/-- C2: for every sequence of first-portal verification outcomes, the
retry loop in `main` invokes the launcher at most 3 times; when the
first three attempts all fail, it performs exactly 3 launches, exits
unverified, and `main` returns the success result `Ok(())` (exit
status 0) without a 4th launch. -/
theorem hypr_retry_bound (outcome : Nat → Bool) (rest : Except Nat Unit) :
    (hyprRetryLoop outcome).1 ≤ max_retries ∧
    (outcome 0 = false → outcome 1 = false → outcome 2 = false →
      hyprRetryLoop outcome = (3, false) ∧
      mainAfterRetry outcome rest = Except.ok ()) := by
  constructor
  · cases h0 : outcome 0 <;> cases h1 : outcome 1 <;> cases h2 : outcome 2 <;>
      simp [hyprRetryLoop, hyprRetryGo, max_retries, h0, h1, h2]
  · intro h0 h1 h2
    have hl : hyprRetryLoop outcome = (3, false) := by
      simp [hyprRetryLoop, hyprRetryGo, max_retries, h0, h1, h2]
    exact ⟨hl, by simp [mainAfterRetry, hl]⟩

/-- C2 witness: with every verification failing, exactly 3 launches
happen and `main` returns `Ok(())` even though the continuation would
have produced an error. -/
theorem hypr_retry_bound_witness :
    hyprRetryLoop (fun _ => false) = (3, false) ∧
    mainAfterRetry (fun _ => false) (Except.error 5) = Except.ok () :=
  (hypr_retry_bound (fun _ => false) (Except.error 5)).2 rfl rfl rfl

/-! ## Session-bus restart (claims C7 and C10) -/

theorem countSigs_append (a b : List DbusEffect) :
    countSigs (a ++ b) = countSigs a + countSigs b := by
  simp [countSigs, List.filter_append]

theorem countPolls_append (a b : List DbusEffect) :
    countPolls (a ++ b) = countPolls a + countPolls b := by
  simp [countPolls, List.filter_append]

theorem countSpawns_append (a b : List DbusEffect) :
    countSpawns (a ++ b) = countSpawns a + countSpawns b := by
  simp [countSpawns, List.filter_append]

theorem counts_map_attempts (l : List (Nat × Sig)) :
    countSigs (l.map (fun a => DbusEffect.signal a.1 a.2)) = l.length ∧
    countPolls (l.map (fun a => DbusEffect.signal a.1 a.2)) = 0 ∧
    countSpawns (l.map (fun a => DbusEffect.signal a.1 a.2)) = 0 := by
  induction l with
  | nil => simp [countSigs, countPolls, countSpawns]
  | cons a rest ih => simp [countSigs, countPolls, countSpawns, List.filter_cons] at ih ⊢
                      exact ih

theorem counts_map_sigterm (l : List (Nat × List Char)) :
    countSigs (l.map (fun p => DbusEffect.signal p.1 Sig.SIGTERM)) = l.length ∧
    countPolls (l.map (fun p => DbusEffect.signal p.1 Sig.SIGTERM)) = 0 ∧
    countSpawns (l.map (fun p => DbusEffect.signal p.1 Sig.SIGTERM)) = 0 := by
  induction l with
  | nil => simp [countSigs, countPolls, countSpawns]
  | cons a rest ih => simp [countSigs, countPolls, countSpawns, List.filter_cons] at ih ⊢
                      exact ih

theorem counts_spawn_singleton :
    countSigs [DbusEffect.spawnBus] = 0 ∧ countPolls [DbusEffect.spawnBus] = 0 ∧
    countSpawns [DbusEffect.spawnBus] = 1 := by
  refine ⟨rfl, rfl, rfl⟩

theorem dbusWaitGo_counts (polls : Nat → List (Nat × List Char)) :
    ∀ fuel i, countSigs (dbusWaitGo polls fuel i) = 0 ∧
      countSpawns (dbusWaitGo polls fuel i) = 0 ∧
      countPolls (dbusWaitGo polls fuel i) ≤ fuel := by
  intro fuel
  induction fuel with
  | zero => intro i; simp [dbusWaitGo, countSigs, countSpawns, countPolls]
  | succ n ih =>
    intro i
    obtain ⟨h1, h2, h3⟩ := ih (i + 1)
    by_cases he : (polls i).isEmpty
    · simp [dbusWaitGo, he, countSigs, countSpawns, countPolls, List.filter_cons]
    · simp only [dbusWaitGo, he, if_neg, Bool.not_eq_true, ite_false]
      simp [countSigs, countSpawns, countPolls, List.filter_cons] at h1 h2 h3 ⊢
      exact ⟨h1, h2, by omega⟩

/-- C7: `restart_dbus` (both the `dbus.rs` version and the `main.rs`
version) is a no-op when the session-bus scan is empty — zero signal
deliveries, zero waiting polls, zero bus spawns — and when the scan is
nonempty it delivers one graceful signal per record, performs at most
10 waiting polls, and attempts exactly one new bus spawn. -/
theorem restart_dbus_ensure_fresh (scan0 : List (Nat × List Char))
    (polls : Nat → List (Nat × List Char)) (killOk : Nat → Sig → Bool) :
    countSigs (restart_dbus scan0 polls killOk) =
      (if scan0.isEmpty then 0 else scan0.length) ∧
    countPolls (restart_dbus scan0 polls killOk) ≤
      (if scan0.isEmpty then 0 else 10) ∧
    countSpawns (restart_dbus scan0 polls killOk) =
      (if scan0.isEmpty then 0 else 1) ∧
    countSigs (main_restart_dbus scan0 polls) =
      (if scan0.isEmpty then 0 else scan0.length) ∧
    countPolls (main_restart_dbus scan0 polls) ≤
      (if scan0.isEmpty then 0 else 10) ∧
    countSpawns (main_restart_dbus scan0 polls) =
      (if scan0.isEmpty then 0 else 1) := by
  obtain ⟨w1, w2, w3⟩ := dbusWaitGo_counts polls 10 0
  by_cases he : scan0.isEmpty
  · simp [restart_dbus, main_restart_dbus, he, countSigs, countPolls, countSpawns]
  · have hkl : (kill_processes scan0 false killOk).1.length = scan0.length :=
      (kill_processes_contract scan0 false killOk).2.2
    obtain ⟨m1, m2, m3⟩ := counts_map_attempts (kill_processes scan0 false killOk).1
    obtain ⟨n1, n2, n3⟩ := counts_map_sigterm scan0
    obtain ⟨s1, s2, s3⟩ := counts_spawn_singleton
    simp only [restart_dbus, main_restart_dbus, he, Bool.false_eq_true, if_false,
      ite_false, countSigs_append, countPolls_append, countSpawns_append,
      m1, m2, m3, n1, n2, n3, s1, s2, s3, w1, w2, hkl]
    refine ⟨by omega, by omega, trivial, by omega, by omega, trivial⟩

theorem countSpawns_main_restart (s : List (Nat × List Char))
    (p : Nat → List (Nat × List Char)) :
    countSpawns (main_restart_dbus s p) = if s.isEmpty then 0 else 1 := by
  by_cases he : s.isEmpty
  · simp [main_restart_dbus, he, countSpawns]
  · obtain ⟨w1, w2, w3⟩ := dbusWaitGo_counts p 10 0
    obtain ⟨n1, n2, n3⟩ := counts_map_sigterm s
    simp only [main_restart_dbus, he, Bool.false_eq_true, if_false, ite_false,
      countSpawns_append, n3, counts_spawn_singleton.2.2, w2]

/-- C10: the dbus phase of `main` runs the check-and-restart protocol
twice in sequence — the `restart_dbus()` call followed by its inline
duplicate — so when a session bus is seen by the first pass and a bus
process (in particular the instance the first pass just spawned) is
seen by the second, two bus spawns are attempted in total and the
second pass delivers a SIGTERM to that process. -/
theorem main_dbus_phase_double_restart (s1 s2 : List (Nat × List Char))
    (p1 p2 : Nat → List (Nat × List Char)) (q : Nat) (nm : List Char)
    (h1 : s1 ≠ []) (hq : (q, nm) ∈ s2) :
    main_dbus_phase s1 p1 s2 p2 = main_restart_dbus s1 p1 ++ main_dbus_inline s2 p2 ∧
    countSpawns (main_dbus_phase s1 p1 s2 p2) = 2 ∧
    DbusEffect.signal q Sig.SIGTERM ∈ main_dbus_inline s2 p2 := by
  have h2 : s2 ≠ [] := List.ne_nil_of_mem hq
  have hs1 : s1.isEmpty = false := by
    cases s1 with
    | nil => exact absurd rfl h1
    | cons a t => rfl
  have hs2 : s2.isEmpty = false := by
    cases s2 with
    | nil => exact absurd rfl h2
    | cons a t => rfl
  refine ⟨rfl, ?_, ?_⟩
  · have e1 := countSpawns_main_restart s1 p1
    have e2 : countSpawns (main_dbus_inline s2 p2) = if s2.isEmpty then 0 else 1 :=
      countSpawns_main_restart s2 p2
    simp only [main_dbus_phase, countSpawns_append, e1, e2, hs1, hs2,
      Bool.false_eq_true, if_false, ite_false]
  · simp only [main_dbus_inline, hs2, Bool.false_eq_true, if_false, ite_false]
    exact List.mem_append_left _ (List.mem_append_left _ (List.mem_map_of_mem _ hq))

/-- C10 witness: a concrete run in which both passes see one bus
process; two spawns happen and the second pass signals pid 2 (the
process seen by the second check). -/
theorem main_dbus_phase_double_restart_witness :
    main_dbus_phase [(1, dbusName)] (fun _ => []) [(2, dbusName)] (fun _ => []) =
      main_restart_dbus [(1, dbusName)] (fun _ => []) ++
        main_dbus_inline [(2, dbusName)] (fun _ => []) ∧
    countSpawns
      (main_dbus_phase [(1, dbusName)] (fun _ => []) [(2, dbusName)] (fun _ => [])) = 2 ∧
    DbusEffect.signal 2 Sig.SIGTERM ∈ main_dbus_inline [(2, dbusName)] (fun _ => []) :=
  main_dbus_phase_double_restart [(1, dbusName)] [(2, dbusName)] (fun _ => [])
    (fun _ => []) 2 dbusName (by simp) (by simp)

/-! ## Scanner invariants (claims C3, C4, C5) -/

theorem matchEntryShared_some {name_pattern : List Char}
    {args_pattern : Option (List Char)} {ourPid ourUid : Nat} {e : ProcEntry}
    {r : Nat × List Char}
    (h : matchEntryShared name_pattern args_pattern ourPid ourUid e = some r) :
    parsePid e.dirName = some r.1 ∧ r.1 ≠ ourPid ∧ e.uid = some ourUid ∧
    ∃ c, e.comm = some c ∧ r.2 = wtrim c ∧
      containsSub name_pattern (wtrim c) = true ∧
      ∀ apat, args_pattern = some apat →
        ∃ cl, e.cmdline = some cl ∧ containsSub apat cl = true := by
  unfold matchEntryShared at h
  repeat' split at h
  all_goals simp_all
  all_goals subst h
  all_goals simp_all

theorem main_find_portal_entry_some {ourPid ourUid : Nat} {e : ProcEntry}
    {r : Nat × List Char} (h : main_find_portal_entry ourPid ourUid e = some r) :
    parsePid e.dirName = some r.1 ∧ r.1 ≠ ourPid ∧ e.uid = some ourUid := by
  unfold main_find_portal_entry at h
  repeat' split at h
  all_goals simp_all
  all_goals subst h
  all_goals simp_all

theorem main_find_dbus_entry_some {e : ProcEntry} {r : Nat × List Char}
    (h : main_find_dbus_entry e = some r) :
    parsePid e.dirName = some r.1 ∧ r.2 = dbusName ∧
    (∃ c, e.comm = some c ∧ wtrim c = dbusName) ∧
    ∃ cl, e.cmdline = some cl ∧ containsSub sessionArg cl = true := by
  unfold main_find_dbus_entry at h
  repeat' split at h
  all_goals simp_all
  all_goals subst h
  all_goals simp_all

/-- C3 (amended): the shared scanner `find_processes_by_name` (hence
also the `portal.rs` and `dbus.rs` scanners built on it) and `main.rs`'s
`find_portal_processes` never return a record carrying the
orchestrator's own pid.  (The claim's further extension to `main.rs`'s
`find_dbus_processes` fails: that scanner has no own-pid filter — see
its counterexample.) -/
theorem scanners_skip_own_pid (name_pattern : List Char)
    (args_pattern : Option (List Char)) (ourPid ourUid : Nat)
    (entries : List ProcEntry) :
    ((find_processes_by_name name_pattern args_pattern ourPid ourUid entries).all
        (fun p => p.1 != ourPid)) = true ∧
    ((main_find_portal_processes ourPid ourUid entries).all
        (fun p => p.1 != ourPid)) = true := by
  constructor
  · rw [List.all_eq_true]
    intro p hp
    rw [find_processes_by_name] at hp
    obtain ⟨e, he, hm⟩ := List.mem_filterMap.mp hp
    have hne := (matchEntryShared_some hm).2.1
    simpa [bne_iff_ne] using hne
  · rw [List.all_eq_true]
    intro p hp
    rw [main_find_portal_processes] at hp
    obtain ⟨e, he, hm⟩ := List.mem_filterMap.mp hp
    have hne := (main_find_portal_entry_some hm).2.1
    simpa [bne_iff_ne] using hne

/-- C3 counterexample: a snapshot whose only entry is a session
`dbus-daemon` with pid 9.  In an invocation whose own pid is 9,
`main.rs`'s `find_dbus_processes` still returns pid 9 (it never
consults the caller's pid), while the shared scanner invoked with
`ourPid = 9` correctly excludes it. -/
theorem main_dbus_own_pid_counterexample :
    9 ∈ (main_find_dbus_processes [c3entry]).map Prod.fst ∧
    find_processes_by_name dbusName (some sessionArg) 9 1000 [c3entry] = [] := by
  exact ⟨by decide, by decide⟩

/-- C4 (amended): every record returned by the shared scanner
`find_processes_by_name` or by `main.rs`'s `find_portal_processes`
stems from a table entry whose owning uid is the caller's uid, so
termination driven by those scanners only targets owned processes.
(The claim's extension to `main.rs`'s `find_dbus_processes` fails: that
scanner performs no ownership check — see its counterexample.) -/
theorem scanners_owned_only (name_pattern : List Char)
    (args_pattern : Option (List Char)) (ourPid ourUid : Nat)
    (entries : List ProcEntry) :
    ((find_processes_by_name name_pattern args_pattern ourPid ourUid entries).all
        (fun p => entries.any (fun e =>
          (parsePid e.dirName == some p.1) && (e.uid == some ourUid)))) = true ∧
    ((main_find_portal_processes ourPid ourUid entries).all
        (fun p => entries.any (fun e =>
          (parsePid e.dirName == some p.1) && (e.uid == some ourUid)))) = true := by
  constructor
  · rw [List.all_eq_true]
    intro p hp
    rw [find_processes_by_name] at hp
    obtain ⟨e, he, hm⟩ := List.mem_filterMap.mp hp
    obtain ⟨h1, h2, h3, hrest⟩ := matchEntryShared_some hm
    rw [List.any_eq_true]
    exact ⟨e, he, by simp [h1, h3]⟩
  · rw [List.all_eq_true]
    intro p hp
    rw [main_find_portal_processes] at hp
    obtain ⟨e, he, hm⟩ := List.mem_filterMap.mp hp
    obtain ⟨h1, h2, h3⟩ := main_find_portal_entry_some hm
    rw [List.any_eq_true]
    exact ⟨e, he, by simp [h1, h3]⟩

/-- C4 counterexample: a snapshot whose only entry is a session
`dbus-daemon` owned by uid 0 while the orchestrator runs as uid 1000.
`main.rs`'s `find_dbus_processes` returns it anyway, and `main.rs`'s
`restart_dbus` then attempts a SIGTERM on that non-owned pid. -/
theorem main_dbus_ownership_counterexample :
    c4entry.uid = some 0 ∧ (0 : Nat) ≠ 1000 ∧
    main_find_dbus_processes [c4entry] = [(9, dbusName)] ∧
    DbusEffect.signal 9 Sig.SIGTERM ∈
      main_restart_dbus (main_find_dbus_processes [c4entry]) (fun _ => []) := by
  exact ⟨rfl, by decide, by decide, by decide⟩

/-- C5 (amended): every record returned by `main.rs`'s
`find_dbus_processes` stems from an entry whose trimmed command name is
exactly `"dbus-daemon"` and whose argument vector contains
`"--session"`; every record returned by the `dbus.rs` path
(`find_processes_by_name("dbus-daemon", Some("--session"))`) stems
from an entry whose trimmed command name merely *contains*
`"dbus-daemon"` as a substring (exactness fails on that path — see the
counterexample) and whose argument vector contains `"--session"`. -/
theorem dbus_scanner_matching (entries : List ProcEntry) (ourPid ourUid : Nat) :
    ((main_find_dbus_processes entries).all (fun p =>
        entries.any (fun e =>
          (parsePid e.dirName == some p.1) &&
          (e.comm.any (fun c => wtrim c == dbusName)) &&
          (e.cmdline.any (fun cl => containsSub sessionArg cl))))) = true ∧
    ((dbus_find_dbus_processes ourPid ourUid entries).all (fun _ =>
        entries.any (fun e =>
          (e.comm.any (fun c => containsSub dbusName (wtrim c))) &&
          (e.cmdline.any (fun cl => containsSub sessionArg cl))))) = true := by
  constructor
  · rw [List.all_eq_true]
    intro p hp
    rw [main_find_dbus_processes] at hp
    obtain ⟨e, he, hm⟩ := List.mem_filterMap.mp hp
    obtain ⟨h1, h2, ⟨c, hc, hcd⟩, cl, hcl, hcs⟩ := main_find_dbus_entry_some hm
    rw [List.any_eq_true]
    refine ⟨e, he, ?_⟩
    simp [h1, hc, hcl, hcd, hcs, Option.any]
  · rw [List.all_eq_true]
    intro p hp
    rw [dbus_find_dbus_processes, find_processes_by_name] at hp
    obtain ⟨e, he, hm⟩ := List.mem_filterMap.mp hp
    obtain ⟨h1, h2, h3, c, hc, hr2, hcont, hargs⟩ := matchEntryShared_some hm
    obtain ⟨cl, hcl, hcs⟩ := hargs sessionArg rfl
    rw [List.any_eq_true]
    refine ⟨e, he, ?_⟩
    simp [hc, hcl, hcont, hcs, Option.any]

/-- C5 counterexample: a process whose command name `"xdbus-daemon"`
is not `"dbus-daemon"` but contains it as a substring (with a
`--session` argument) is matched by the `dbus.rs` session-bus scanner,
so that path does not require exact command-name equality. -/
theorem dbus_substring_match_counterexample :
    dbus_find_dbus_processes 1 1000 [c5entry] = [(7, "xdbus-daemon".toList)] ∧
    ¬ ("xdbus-daemon".toList = dbusName) := by
  exact ⟨by decide, by decide⟩

/-! ## Verification loops (claims C9 and C1) -/

theorem hyprPollGo_all (scan : Nat → List (Nat × List Char)) :
    ∀ fuel i, (∀ j, i ≤ j → j < i + fuel → (scan j).isEmpty = false) →
      hyprPollGo scan fuel i = (true, i + fuel) := by
  intro fuel
  induction fuel with
  | zero => intro i h; simp [hyprPollGo]
  | succ n ih =>
    intro i h
    have h0 : (scan i).isEmpty = false := h i (Nat.le_refl i) (by omega)
    have hrec := ih (i + 1) (fun j hj1 hj2 => h j (by omega) (by omega))
    simp [hyprPollGo, h0, hrec, Prod.mk.injEq]
    omega

theorem hyprPollGo_fail (scan : Nat → List (Nat × List Char)) :
    ∀ fuel i k, i ≤ k → k < i + fuel →
      (∀ j, i ≤ j → j < k → (scan j).isEmpty = false) →
      (scan k).isEmpty = true →
      hyprPollGo scan fuel i = (false, k + 1) := by
  intro fuel
  induction fuel with
  | zero => intro i k h1 h2 h3 h4; omega
  | succ n ih =>
    intro i k h1 h2 h3 h4
    by_cases hik : i = k
    · subst hik
      simp [hyprPollGo, h4]
    · have h0 : (scan i).isEmpty = false := h3 i (Nat.le_refl i) (by omega)
      have hrec := ih (i + 1) k (by omega) (by omega)
        (fun j hj1 hj2 => h3 j (by omega) hj2) h4
      simp [hyprPollGo, h0, hrec]

/-- C9: the first-portal verification loop declares success exactly
when the scanned portal-process set is nonempty at all 20 polls, and
the moment a poll observes the empty set it stops with failure
immediately — after a clean prefix of length `k` followed by an empty
scan at poll `k`, the loop result is failure after exactly `k + 1`
polls, skipping the rest. -/
theorem hyprPollLoop_characterization (scan : Nat → List (Nat × List Char)) :
    ((hyprPollLoop scan).1 = true ↔ ∀ i, i < 20 → (scan i).isEmpty = false) ∧
    (∀ k, k < 20 → (∀ j, j < k → (scan j).isEmpty = false) →
      (scan k).isEmpty = true → hyprPollLoop scan = (false, k + 1)) := by
  constructor
  · constructor
    · intro h i hi
      by_contra hne
      have hempty : (scan i).isEmpty = true := by
        cases hsc : (scan i).isEmpty
        · exact absurd hsc hne
        · rfl
      have hex : ∃ j, (scan j).isEmpty = true := ⟨i, hempty⟩
      have hklt : Nat.find hex ≤ i := Nat.find_min' hex hempty
      have hfail := hyprPollGo_fail scan 20 0 (Nat.find hex) (Nat.zero_le _)
        (by omega)
        (fun j hj1 hj2 => by
          have hnot := Nat.find_min hex hj2
          cases hsc : (scan j).isEmpty
          · rfl
          · exact absurd hsc hnot)
        (Nat.find_spec hex)
      rw [hyprPollLoop, hfail] at h
      simp at h
    · intro hall
      have hrun := hyprPollGo_all scan 20 0 (fun j hj1 hj2 => hall j (by omega))
      rw [hyprPollLoop, hrun]
  · intro k hk hb he
    exact hyprPollGo_fail scan 20 0 k (Nat.zero_le k) (by omega)
      (fun j hj1 hj2 => hb j hj2) he

/-- C9 witness: on a trace where the portal set empties at poll 5, the
loop fails after exactly 6 polls. -/
theorem hyprPollLoop_witness : hyprPollLoop c9scan = (false, 6) :=
  (hyprPollLoop_characterization c9scan).2 5 (by omega) (by decide) (by decide)

theorem xdgPollGo_all (scanA scanB : Nat → List (Nat × List Char)) :
    ∀ fuel i succ, (∀ j, i ≤ j → j < i + fuel → xdgExactCheck scanA j = true) →
      xdgPollGo scanA scanB fuel i succ = (if fuel = 0 then succ else true) := by
  intro fuel
  induction fuel with
  | zero => intro i succ h; simp [xdgPollGo]
  | succ n ih =>
    intro i succ h
    have h0 : xdgExactCheck scanA i = true := h i (Nat.le_refl i) (by omega)
    have hrec := ih (i + 1) true (fun j hj1 hj2 => h j (by omega) (by omega))
    simp [xdgPollGo, h0, hrec]

theorem xdgPollGo_fail (scanA scanB : Nat → List (Nat × List Char)) :
    ∀ fuel i succ k, i ≤ k → k < i + fuel →
      (∀ j, i ≤ j → j < k → xdgExactCheck scanA j = true) →
      xdgExactCheck scanA k = false →
      xdgPollGo scanA scanB fuel i succ =
        (xdgFallbackCheck scanB k || succ || decide (i < k)) := by
  intro fuel
  induction fuel with
  | zero => intro i succ k h1 h2 h3 h4; omega
  | succ n ih =>
    intro i succ k h1 h2 h3 h4
    by_cases hik : i = k
    · subst hik
      simp only [xdgPollGo, h4, Bool.false_eq_true, if_false, ite_false]
      cases hfb : xdgFallbackCheck scanB i <;> simp [hfb]
    · have h0 : xdgExactCheck scanA i = true := h3 i (Nat.le_refl i) (by omega)
      have hlt : i < k := by omega
      have hrec := ih (i + 1) true k (by omega) (by omega)
        (fun j hj1 hj2 => h3 j (by omega) hj2) h4
      simp [xdgPollGo, h0, hrec, hlt]

/-- C1 (amended): in the second-portal loop the success flag is
latched, never reset.  If the exact-name check passes at all 20 polls
the result is success.  If it first fails at poll `k` the loop stops
there and the result is success exactly when the fallback re-scan at
poll `k` still shows the Hyprland portal OR `k > 0` (some earlier poll
already passed the exact check and latched success).  In particular
failure occurs only when the exact check fails at the very first poll
with the Hyprland portal also absent — not, as claimed, whenever some
poll fails with the Hyprland portal absent. -/
theorem xdgPollLoop_first_failure (scanA scanB : Nat → List (Nat × List Char))
    (k : Nat) (hk : k ≤ 20)
    (hbefore : ∀ j, j < k → xdgExactCheck scanA j = true)
    (hfail : k < 20 → xdgExactCheck scanA k = false) :
    xdgPollLoop scanA scanB =
      (if k < 20 then xdgFallbackCheck scanB k || decide (0 < k) else true) := by
  by_cases h : k < 20
  · rw [if_pos h]
    have hrun := xdgPollGo_fail scanA scanB 20 0 false k (Nat.zero_le k) (by omega)
      (fun j hj1 hj2 => hbefore j hj2) (hfail h)
    rw [xdgPollLoop, hrun]
    simp
  · rw [if_neg h]
    have hrun := xdgPollGo_all scanA scanB 20 0 false
      (fun j hj1 hj2 => hbefore j (by omega))
    rw [xdgPollLoop, hrun]
    simp

/-- C1 counterexample: on the trace where the exact name is seen at
poll 0 only and the Hyprland portal is absent at the failing poll 1,
the claim predicts failure, but the loop's final success flag is
`true` — the success latched at poll 0 survives the failing poll. -/
theorem xdgPollLoop_latched_counterexample :
    xdgExactCheck c1scanA 1 = false ∧
    xdgFallbackCheck (fun _ => []) 1 = false ∧
    xdgPollLoop c1scanA (fun _ => []) = true := by
  exact ⟨by decide, by decide, by decide⟩

/-- C1 witness: the exact check fails at the very first poll while the
Hyprland portal is present at the fallback re-scan; the loop succeeds
by graceful degradation. -/
theorem xdgPollLoop_first_failure_witness :
    xdgPollLoop (fun _ => []) c1wscanB =
      (if 0 < 20 then xdgFallbackCheck c1wscanB 0 || decide (0 < 0) else true) :=
  xdgPollLoop_first_failure (fun _ => []) c1wscanB 0 (by omega)
    (fun j hj => absurd hj (Nat.not_lt_zero j)) (fun _ => by decide)

end PortalReset
